import Mathlib

/-!
# Verification of `main.py` (MostestClosestNeighbour)

A shallow embedding of the toy N-body gravity simulation in `main.py`.
Modelling conventions:

* Python floats are modelled as real numbers (`ℝ`); the float formulas of the
  source are transcribed literally over `ℝ`.
* Python object identity is modelled by an explicit `oid : Nat` tag on every
  `CelestialObject`.  None of the classes define `__eq__`, so Python's `==`
  on bodies is reference identity; two distinct objects never compare equal
  even with identical state, which the embedding renders as comparison of
  `oid` tags (each constructed object gets a fresh tag).
* Python runtime failures that the modelled code can actually raise
  (`ZeroDivisionError` in the force computation, `KeyError` on a missing
  dictionary key, a missing list index) are modelled with `Option`.  The
  primary transcription of `calculate_force_vectors` is total, using Lean's
  `x / 0 = 0` convention; the checked variant `calculate_force_vectorsE`
  refines it with the `ZeroDivisionError` case made explicit, and the two
  agree whenever the divisor is nonzero.
* Mutation is modelled by explicit state passing: every method that mutates
  `self` becomes a function returning the updated object.  The alias
  `self.parent_star` held by a `Planet` is modelled by passing the current
  state of the star explicitly to the operations that read it.
-/

namespace MCN

noncomputable section

open scoped Classical

/-- Source `AU = 149.6e9` metres (main.py line 7). -/
def AU : ℝ := 1496 * 10 ^ 8

/-- Gravitational constant `G = 6.67428e-11` (main.py line 8). -/
def G : ℝ := 667428 / 10 ^ 16

/-- Source `SCALE = 200 / AU` (main.py line 12). -/
def SCALE : ℝ := 200 / AU

/-- Source `TIME_STEP = 60 * 60 * 24`, one day in seconds (main.py line 13). -/
def TIME_STEP : ℝ := 60 * 60 * 24

/-- The `Color` enumeration of main.py (display-only). -/
inductive Color where
  | WHITE | BLACK | YELLOW | GRAY | ORANGE | BLUE | RED
deriving DecidableEq

/-- Python's `math.atan2(y, x)`: the angle of the point `(x, y)`, realised
as the argument of the complex number `x + y·i` (both have range `(-π, π]`
and value `0` at the origin). -/
def atan2 (y x : ℝ) : ℝ := Complex.arg ⟨x, y⟩

/-- Python's `math.dist(p, q)`: Euclidean distance between two points. -/
def math_dist (p q : ℝ × ℝ) : ℝ :=
  Real.sqrt ((p.1 - q.1) ^ 2 + (p.2 - q.2) ^ 2)

/-- Python's `int(x)` on a float: truncation toward zero. -/
def pyInt (x : ℝ) : ℤ := if 0 ≤ x then ⌊x⌋ else ⌈x⌉

/-- Python's slice `l[-t:]` for an integer `t`.  For `t > 0` it keeps the
last `t` elements (all of them when `t ≥ len(l)`); for `t = 0` the slice is
`l[0:]`, the whole list; for `t < 0` the start index `-t` is positive and the
slice drops the first `-t` elements. -/
def pyTailSlice {α : Type} (l : List α) (t : ℤ) : List α :=
  if 0 < t then l.drop (l.length - t.toNat)
  else if t = 0 then l
  else l.drop (-t).toNat

/-- The state of a `CelestialObject` (main.py lines 27-42).  `oid` is the
Python object identity; the remaining fields are the attributes set by
`__init__`. -/
@[ext]
structure CelestialObject where
  oid : Nat
  name : String
  radius : ℝ
  color : Color
  mass : ℝ
  x : ℝ
  y : ℝ
  x_vel : ℝ
  y_vel : ℝ

namespace CelestialObject

/-- Source `CelestialObject.__init__` with the positional/velocity pairs of the
source signature (lines 29-42); `oid` is the identity of the new object. -/
def init (oid : Nat) (name : String) (radius : ℝ) (color : Color) (mass : ℝ)
    (position : ℝ × ℝ := (0, 0)) (velocity : ℝ × ℝ := (0, 0)) :
    CelestialObject :=
  ⟨oid, name, radius, color, mass, position.1, position.2, velocity.1, velocity.2⟩

/-- Source `set_position` (lines 44-46). -/
def set_position (self : CelestialObject) (x y : ℝ) : CelestialObject :=
  { self with x := x, y := y }

/-- Source `set_velocity` (lines 48-50). -/
def set_velocity (self : CelestialObject) (x_vel y_vel : ℝ) : CelestialObject :=
  { self with x_vel := x_vel, y_vel := y_vel }

/-- Source `get_position` (lines 52-53). -/
def get_position (self : CelestialObject) : ℝ × ℝ := (self.x, self.y)

/-- Source `calculate_distance_vectors` (lines 55-59). -/
def calculate_distance_vectors (self other_body : CelestialObject) : ℝ × ℝ :=
  (other_body.x - self.x, other_body.y - self.y)

/-- Source `calculate_force_vectors` (lines 61-70), transcribed literally with
Lean's total division (`force` is the junk value `0` when the distance is
zero; the Python runtime error at that point is captured by
`calculate_force_vectorsE` below). -/
def calculate_force_vectors (self other_body : CelestialObject) : ℝ × ℝ :=
  let distance_x := (self.calculate_distance_vectors other_body).1
  let distance_y := (self.calculate_distance_vectors other_body).2
  let distance := math_dist self.get_position other_body.get_position
  let force := G * self.mass * other_body.mass / distance ^ 2
  let theta := atan2 distance_y distance_x
  (Real.cos theta * force, Real.sin theta * force)

/-- Source `calculate_force_vectors` with the `ZeroDivisionError` raised by Python
when `distance ** 2 == 0` made explicit as `none`. -/
def calculate_force_vectorsE (self other_body : CelestialObject) : Option (ℝ × ℝ) :=
  let distance := math_dist self.get_position other_body.get_position
  if distance ^ 2 = 0 then none
  else some (self.calculate_force_vectors other_body)

/-- Source `update_position` (lines 72-86): accumulate the force vectors of all
bodies other than `self` (skipped by identity, line 75), then update the
velocity from the accumulated force and the position from the *new*
velocity. -/
def update_position (self : CelestialObject) (bodies : List CelestialObject) :
    CelestialObject :=
  let total := bodies.foldl
    (fun (acc : ℝ × ℝ) body =>
      if self.oid = body.oid then acc
      else (acc.1 + (self.calculate_force_vectors body).1,
            acc.2 + (self.calculate_force_vectors body).2))
    (0, 0)
  let x_vel := self.x_vel + total.1 / self.mass * TIME_STEP
  let y_vel := self.y_vel + total.2 / self.mass * TIME_STEP
  { self with
      x_vel := x_vel
      y_vel := y_vel
      x := self.x + x_vel * TIME_STEP
      y := self.y + y_vel * TIME_STEP }

end CelestialObject

/-- The extra state of a `Planet` (main.py lines 97-112): the inherited
`CelestialObject` state in `obj`, the orbit trail, and the cached distance to
the parent star.  The `parent_star` alias is passed explicitly to the
operations that dereference it. -/
@[ext]
structure Planet where
  obj : CelestialObject
  orbit : List (ℝ × ℝ)
  distance_to_parent : ℝ

namespace Planet

/-- Source `Planet.__init__` (lines 99-112): construct the base object, start with
an empty orbit, and cache the distance from the construction-time position to
the parent star's current position. -/
def init (oid : Nat) (name : String) (parent_star : CelestialObject)
    (radius : ℝ) (color : Color) (mass : ℝ)
    (position : ℝ × ℝ := (0, 0)) (velocity : ℝ × ℝ := (0, 0)) : Planet :=
  let obj := CelestialObject.init oid name radius color mass position velocity
  { obj := obj
    orbit := []
    distance_to_parent := math_dist obj.get_position parent_star.get_position }

/-- Source `set_position` as inherited by `Planet`: it only touches the base
`x`/`y` attributes. -/
def set_position (self : Planet) (x y : ℝ) : Planet :=
  { self with obj := self.obj.set_position x y }

/-- Source `set_velocity` as inherited by `Planet`. -/
def set_velocity (self : Planet) (x_vel y_vel : ℝ) : Planet :=
  { self with obj := self.obj.set_velocity x_vel y_vel }

/-- Source `Planet.update_position` (lines 136-145): run the inherited integrator,
recompute `distance_to_parent` against the parent star's current position,
append the new position to the orbit, and truncate the orbit with
`self.orbit[-tail_length:]` when its length exceeds
`tail_length = int(distance_to_parent * SCALE)`. -/
def update_position (self : Planet) (parent_star : CelestialObject)
    (bodies : List CelestialObject) : Planet :=
  let obj := self.obj.update_position bodies
  let distance_to_parent := math_dist obj.get_position parent_star.get_position
  let orbit := self.orbit ++ [(obj.x, obj.y)]
  let tail_length := pyInt (distance_to_parent * SCALE)
  { obj := obj
    distance_to_parent := distance_to_parent
    orbit := if tail_length < (orbit.length : ℤ) then pyTailSlice orbit tail_length
             else orbit }

end Planet

/-- The state of a `SolarSystem` (main.py lines 148-153). -/
@[ext]
structure SolarSystem where
  name : String
  star : CelestialObject
  planets : List Planet

/-- The planet loop of `SolarSystem.update_positions` (lines 158-160):
`done` holds the planets already updated this tick, `todo` those not yet
updated.  Each step updates the head of `todo` against the body list
`[star] + planets` as it stands at that moment — the updated star, the
already-updated planets in `done`, and the not-yet-updated rest — which is
exactly what the in-place mutation of the source produces. -/
def updatePlanets (star : CelestialObject) :
    List Planet → List Planet → List Planet
  | done, [] => done
  | done, p :: rest =>
      updatePlanets star
        (done ++ [p.update_position star
          (star :: (done.map Planet.obj ++ (p :: rest).map Planet.obj))])
        rest

/-- Source `SolarSystem.update_positions` (lines 155-160): first the star is
updated against the (pre-tick) planet list, then every planet is updated in
sequence against `[star] + planets`. -/
def SolarSystem.update_positions (self : SolarSystem) : SolarSystem :=
  let star := self.star.update_position (self.planets.map Planet.obj)
  { self with star := star, planets := updatePlanets star [] self.planets }

/-- One step of the loop of `mostest_closest_neighbour` (lines 180-187): the
accumulator holds the current `closest_neighbour` and `closest_distance`
(initially `None` and `math.inf`, the latter modelled as `⊤ : EReal`).  A
candidate identical to `planet` is skipped; otherwise it replaces the
accumulator exactly when its distance is strictly smaller. -/
def mcnStep (planet : CelestialObject)
    (acc : Option CelestialObject × EReal) (other_planet : CelestialObject) :
    Option CelestialObject × EReal :=
  if other_planet.oid = planet.oid then acc
  else
    let distance := math_dist planet.get_position other_planet.get_position
    if (distance : EReal) < acc.2 then (some other_planet, (distance : EReal))
    else acc

/-- Source `mostest_closest_neighbour` (lines 176-189). -/
def mostest_closest_neighbour (planet : CelestialObject)
    (other_planets : List CelestialObject) : Option CelestialObject :=
  (other_planets.foldl (mcnStep planet) (none, (⊤ : EReal))).1

/-- Modelled from the spec (§4.4): "scan all candidates except the reference
itself; return the one with minimal Euclidean distance to reference; ties
broken by first-encountered in iteration order; returns none only if the
candidates set is empty".  This is the first-encountered argmin of an
already-filtered candidate list, written by recursion on the list: the head
wins against the best of the tail exactly when its distance is `≤`. -/
def nearestNeighbourSpec (planet : CelestialObject) :
    List CelestialObject → Option CelestialObject
  | [] => none
  | b :: l =>
      match nearestNeighbourSpec planet l with
      | none => some b
      | some c =>
          if math_dist planet.get_position b.get_position ≤
              math_dist planet.get_position c.get_position then some b
          else some c

/-- The state of the driver loop of `run_simulation` (lines 192-253):
the solar system, the index of the reference planet (`earth` is
`planets[2]`), the tick counter `count`, and the tally dictionary
`closest_count`, an insertion-ordered map from planet identity to count. -/
structure SimState where
  sys : SolarSystem
  earthIdx : Nat
  count : Nat
  closest_count : List (Nat × Nat)

/-- Source `closest_count[k] += 1`: increment the value at key `k`, or fail with a
`KeyError` (`none`) when `k` is not a key. -/
def dictIncr (k : Nat) : List (Nat × Nat) → Option (List (Nat × Nat))
  | [] => none
  | (k', v) :: rest =>
      if k' = k then some ((k', v + 1) :: rest)
      else (dictIncr k rest).map (fun t => (k', v) :: t)

/-- One iteration of the driver loop body (lines 234-238): advance the
system, increment `count`, find Earth's nearest neighbour among the (now
updated) planets, and increment its tally.  `none` models the runtime errors
Python would raise there: `closest_count[None]` when the search returns
`None`, and a `KeyError` when the result is not a tally key. -/
def tick (s : SimState) : Option SimState :=
  let sys := s.sys.update_positions
  let count := s.count + 1
  match sys.planets.get? s.earthIdx with
  | none => none
  | some earth =>
      match mostest_closest_neighbour earth.obj (sys.planets.map Planet.obj) with
      | none => none
      | some closest_planet =>
          (dictIncr closest_planet.oid s.closest_count).map
            (fun t => ⟨sys, s.earthIdx, count, t⟩)

/-- The sum of all tally counts. -/
def sumCounts (t : List (Nat × Nat)) : Nat := (t.map Prod.snd).sum

/-- Source `sun` of the default scenario (lines 193-194), identity tag 0. -/
def sun : CelestialObject :=
  (CelestialObject.init 0 "Sun" 16 Color.YELLOW (198892 * 10 ^ 25)).set_position 0 0

/-- Source `mercury` (lines 196-198): mass `3.30e23`, position `(0.387 AU, 0)`,
velocity `(0, 47400)`. -/
def mercury : Planet :=
  ((Planet.init 1 "Mercury" sun 4 Color.GRAY (33 * 10 ^ 22)).set_position
    (387 / 1000 * AU) 0).set_velocity 0 47400

/-- Source `venus` (lines 200-202): mass `4.8685e24`, position `(-0.723 AU, 0)`,
velocity `(0, -35020)`. -/
def venus : Planet :=
  ((Planet.init 2 "Venus" sun 5 Color.ORANGE (48685 * 10 ^ 20)).set_position
    (-(723 / 1000 * AU)) 0).set_velocity 0 (-35020)

/-- Source `earth` (lines 204-206): mass `5.9742e24`, position `(1 AU, 0)`,
velocity `(0, 29783)`. -/
def earth : Planet :=
  ((Planet.init 3 "Earth" sun 5 Color.BLUE (59742 * 10 ^ 20)).set_position
    (1 * AU) 0).set_velocity 0 29783

/-- Source `mars` (lines 208-210): mass `6.39e23`, position `(-1.524 AU, 0)`,
velocity `(0, -24077)`. -/
def mars : Planet :=
  ((Planet.init 4 "Mars" sun 4 Color.RED (639 * 10 ^ 21)).set_position
    (-(1524 / 1000 * AU)) 0).set_velocity 0 (-24077)

/-- Source `planets = [mercury, venus, earth, mars]` (line 212). -/
def planets : List Planet := [mercury, venus, earth, mars]

/-- Source `solar_system` (line 214). -/
def solar_system : SolarSystem := ⟨"The Solar System", sun, planets⟩

/-- The driver state just before the first iteration (lines 216-217):
`count = 0` and `closest_count = {planet: 0 for planet in planets if planet != earth}`,
whose keys are mercury, venus and mars in insertion order. -/
def initState : SimState := ⟨solar_system, 2, 0, [(1, 0), (2, 0), (4, 0)]⟩

/-- The driver state after `n` iterations of the loop body. -/
def ticks : Nat → Option SimState
  | 0 => some initState
  | n + 1 => (ticks n).bind tick

/-- Modelled from the spec (§4.1): "force magnitude `F = G·mass_a·mass_b/d²`,
direction angle `θ = atan2(Δy, Δx)`, force components `(F·cos θ, F·sin θ)`",
with `Δ` the distance vector from `a` to `b` and `d` the Euclidean distance
between the two positions. -/
def forceSpec (a b : CelestialObject) : ℝ × ℝ :=
  let d := math_dist a.get_position b.get_position
  let F := G * a.mass * b.mass / d ^ 2
  let theta := atan2 (b.y - a.y) (b.x - a.x)
  (F * Real.cos theta, F * Real.sin theta)

end

section DistanceLemmas

lemma math_dist_nonneg (p q : ℝ × ℝ) : 0 ≤ math_dist p q :=
  Real.sqrt_nonneg _

lemma math_dist_comm (p q : ℝ × ℝ) : math_dist p q = math_dist q p := by
  rw [math_dist, math_dist]
  congr 1
  ring

lemma math_dist_eq_zero_iff (p q : ℝ × ℝ) : math_dist p q = 0 ↔ p = q := by
  rw [math_dist, Real.sqrt_eq_zero (by positivity)]
  rw [add_eq_zero_iff_of_nonneg (sq_nonneg _) (sq_nonneg _)]
  rw [pow_eq_zero_iff two_ne_zero, pow_eq_zero_iff two_ne_zero,
    sub_eq_zero, sub_eq_zero, Prod.ext_iff]

lemma math_dist_pos_iff (p q : ℝ × ℝ) : 0 < math_dist p q ↔ p ≠ q := by
  rw [(math_dist_nonneg p q).lt_iff_ne, ne_comm]
  exact not_congr (math_dist_eq_zero_iff p q)

lemma math_dist_sq (p q : ℝ × ℝ) :
    math_dist p q ^ 2 = (p.1 - q.1) ^ 2 + (p.2 - q.2) ^ 2 :=
  Real.sq_sqrt (by positivity)

end DistanceLemmas

section ForceLemmas

open CelestialObject

lemma abs_mk_sub (a b : CelestialObject) :
    Complex.abs ⟨b.x - a.x, b.y - a.y⟩ = math_dist a.get_position b.get_position := by
  rw [Complex.abs_apply, Complex.normSq_mk, math_dist]
  congr 1
  simp only [get_position]
  ring

lemma mk_sub_ne_zero (a b : CelestialObject)
    (h : a.get_position ≠ b.get_position) :
    (⟨b.x - a.x, b.y - a.y⟩ : ℂ) ≠ 0 := by
  intro hc
  apply h
  rw [Complex.ext_iff] at hc
  simp only [Complex.zero_re, Complex.zero_im] at hc
  have hx : a.x = b.x := by linarith [hc.1]
  have hy : a.y = b.y := by linarith [hc.2]
  simp [get_position, hx, hy]

/-- Closed form of `calculate_force_vectors` for distinct positions: the
force vector is `F · (Δx/d, Δy/d)` with `F = G·mass_a·mass_b/d²`. -/
lemma calculate_force_vectors_closed (a b : CelestialObject)
    (h : a.get_position ≠ b.get_position) :
    a.calculate_force_vectors b =
      (G * a.mass * b.mass / math_dist a.get_position b.get_position ^ 2 *
        ((b.x - a.x) / math_dist a.get_position b.get_position),
       G * a.mass * b.mass / math_dist a.get_position b.get_position ^ 2 *
        ((b.y - a.y) / math_dist a.get_position b.get_position)) := by
  have hz := mk_sub_ne_zero a b h
  rw [calculate_force_vectors, atan2, calculate_distance_vectors]
  simp only [Complex.cos_arg hz, Complex.sin_arg, abs_mk_sub]
  rw [Prod.mk.injEq]
  constructor <;> ring

end ForceLemmas

section ForceClaims

open CelestialObject

/-- C2: for two bodies at positive distance, `calculate_force_vectors a b`
returns the components `(F·cos θ, F·sin θ)` with `F = G·mass_a·mass_b/d²`
and `θ = atan2(b.y − a.y, b.x − a.x)`, i.e. exactly the spec's formula
(`forceSpec`). -/
theorem C2_force_components (a b : CelestialObject)
    (h : 0 < math_dist a.get_position b.get_position) :
    a.calculate_force_vectors b = forceSpec a b := by
  rw [calculate_force_vectors, forceSpec, calculate_distance_vectors]
  rw [Prod.mk.injEq]
  constructor <;> ring

theorem C2_force_components_witness :
    0 < math_dist (CelestialObject.mk 10 "A" 1 Color.WHITE 1 0 0 0 0).get_position
        (CelestialObject.mk 11 "B" 1 Color.WHITE 2 3 4 0 0).get_position ∧
    (CelestialObject.mk 10 "A" 1 Color.WHITE 1 0 0 0 0).calculate_force_vectors
        (CelestialObject.mk 11 "B" 1 Color.WHITE 2 3 4 0 0) =
      forceSpec (CelestialObject.mk 10 "A" 1 Color.WHITE 1 0 0 0 0)
        (CelestialObject.mk 11 "B" 1 Color.WHITE 2 3 4 0 0) := by
  have h : 0 < math_dist (CelestialObject.mk 10 "A" 1 Color.WHITE 1 0 0 0 0).get_position
      (CelestialObject.mk 11 "B" 1 Color.WHITE 2 3 4 0 0).get_position := by
    rw [math_dist, Real.sqrt_pos]
    norm_num [get_position]
  exact ⟨h, C2_force_components _ _ h⟩

/-- C6: for two bodies with positive masses at distinct positions, the two
pairwise forces are exact opposites (`force_on_a = −force_on_b`) and their
common magnitude is `G·mass_a·mass_b/d²`, over exact real arithmetic. -/
theorem C6_newton_third_law (a b : CelestialObject)
    (ha : 0 < a.mass) (hb : 0 < b.mass)
    (h : a.get_position ≠ b.get_position) :
    a.calculate_force_vectors b = -(b.calculate_force_vectors a) ∧
    Real.sqrt ((a.calculate_force_vectors b).1 ^ 2 +
        (a.calculate_force_vectors b).2 ^ 2) =
      G * a.mass * b.mass / math_dist a.get_position b.get_position ^ 2 := by
  have h' : b.get_position ≠ a.get_position := Ne.symm h
  have hdpos : 0 < math_dist a.get_position b.get_position :=
    (math_dist_pos_iff _ _).2 h
  have hG : (0 : ℝ) < G := by rw [G]; norm_num
  rw [calculate_force_vectors_closed a b h, calculate_force_vectors_closed b a h',
    math_dist_comm b.get_position a.get_position]
  set d := math_dist a.get_position b.get_position with hd
  have hsq : (b.x - a.x) ^ 2 + (b.y - a.y) ^ 2 = d ^ 2 := by
    rw [hd, math_dist_sq]
    simp only [get_position]
    ring
  have hFnn : 0 ≤ G * a.mass * b.mass / d ^ 2 := by positivity
  constructor
  · rw [Prod.neg_mk, Prod.mk.injEq]
    constructor
    · rw [mul_comm (G * b.mass) a.mass, ← mul_assoc]
      ring
    · ring
  · have hmag : (G * a.mass * b.mass / d ^ 2 * ((b.x - a.x) / d)) ^ 2 +
        (G * a.mass * b.mass / d ^ 2 * ((b.y - a.y) / d)) ^ 2 =
        (G * a.mass * b.mass / d ^ 2) ^ 2 := by
      have hdne : d ≠ 0 := ne_of_gt hdpos
      field_simp
      linear_combination (G * a.mass * b.mass) ^ 2 * d ^ 4 * hsq
    rw [hmag, Real.sqrt_sq hFnn]

theorem C6_newton_third_law_witness :
    0 < (CelestialObject.mk 20 "A" 1 Color.WHITE 3 0 0 0 0).mass ∧
    0 < (CelestialObject.mk 21 "B" 1 Color.WHITE 5 (-3) 4 0 0).mass ∧
    (CelestialObject.mk 20 "A" 1 Color.WHITE 3 0 0 0 0).get_position ≠
      (CelestialObject.mk 21 "B" 1 Color.WHITE 5 (-3) 4 0 0).get_position ∧
    ((CelestialObject.mk 20 "A" 1 Color.WHITE 3 0 0 0 0).calculate_force_vectors
        (CelestialObject.mk 21 "B" 1 Color.WHITE 5 (-3) 4 0 0) =
      -((CelestialObject.mk 21 "B" 1 Color.WHITE 5 (-3) 4 0 0).calculate_force_vectors
        (CelestialObject.mk 20 "A" 1 Color.WHITE 3 0 0 0 0)) ∧
    Real.sqrt (((CelestialObject.mk 20 "A" 1 Color.WHITE 3 0 0 0 0).calculate_force_vectors
          (CelestialObject.mk 21 "B" 1 Color.WHITE 5 (-3) 4 0 0)).1 ^ 2 +
        ((CelestialObject.mk 20 "A" 1 Color.WHITE 3 0 0 0 0).calculate_force_vectors
          (CelestialObject.mk 21 "B" 1 Color.WHITE 5 (-3) 4 0 0)).2 ^ 2) =
      G * (CelestialObject.mk 20 "A" 1 Color.WHITE 3 0 0 0 0).mass *
          (CelestialObject.mk 21 "B" 1 Color.WHITE 5 (-3) 4 0 0).mass /
        math_dist (CelestialObject.mk 20 "A" 1 Color.WHITE 3 0 0 0 0).get_position
            (CelestialObject.mk 21 "B" 1 Color.WHITE 5 (-3) 4 0 0).get_position ^ 2) := by
  have ha : (0 : ℝ) < 3 := by norm_num
  have hb : (0 : ℝ) < 5 := by norm_num
  have h : (CelestialObject.mk 20 "A" 1 Color.WHITE 3 0 0 0 0).get_position ≠
      (CelestialObject.mk 21 "B" 1 Color.WHITE 5 (-3) 4 0 0).get_position := by
    simp only [get_position, ne_eq, Prod.mk.injEq]
    norm_num
  exact ⟨ha, hb, h, C6_newton_third_law _ _ ha hb h⟩

/-- C8: `calculate_force_vectorsE` (the transcription with Python's
`ZeroDivisionError` explicit) fails exactly when the two bodies occupy the
same position (`d = 0`); under the precondition `d > 0` the error branch is
unreachable and the function returns the computed force. -/
theorem C8_division_by_zero (a b : CelestialObject) :
    (a.calculate_force_vectorsE b = none ↔ a.get_position = b.get_position) ∧
    (0 < math_dist a.get_position b.get_position →
      a.calculate_force_vectorsE b = some (a.calculate_force_vectors b)) := by
  rw [calculate_force_vectorsE]
  constructor
  · split_ifs with hc
    · simp only [true_iff]
      exact (math_dist_eq_zero_iff _ _).1 (pow_eq_zero_iff two_ne_zero |>.1 hc)
    · simp only [reduceCtorEq, false_iff]
      intro he
      exact hc (by rw [(math_dist_eq_zero_iff _ _).2 he]; ring)
  · intro h
    rw [if_neg (pow_ne_zero 2 h.ne')]

theorem C8_division_by_zero_witness :
    (CelestialObject.mk 30 "A" 1 Color.WHITE 1 5 6 0 0).calculate_force_vectorsE
      (CelestialObject.mk 31 "B" 1 Color.WHITE 1 5 6 0 0) = none ∧
    0 < math_dist (CelestialObject.mk 32 "C" 1 Color.WHITE 1 0 0 0 0).get_position
        (CelestialObject.mk 33 "D" 1 Color.WHITE 1 8 (-6) 0 0).get_position ∧
    (CelestialObject.mk 32 "C" 1 Color.WHITE 1 0 0 0 0).calculate_force_vectorsE
        (CelestialObject.mk 33 "D" 1 Color.WHITE 1 8 (-6) 0 0) =
      some ((CelestialObject.mk 32 "C" 1 Color.WHITE 1 0 0 0 0).calculate_force_vectors
        (CelestialObject.mk 33 "D" 1 Color.WHITE 1 8 (-6) 0 0)) := by
  have h : 0 < math_dist (CelestialObject.mk 32 "C" 1 Color.WHITE 1 0 0 0 0).get_position
      (CelestialObject.mk 33 "D" 1 Color.WHITE 1 8 (-6) 0 0).get_position := by
    rw [math_dist, Real.sqrt_pos]
    norm_num [get_position]
  refine ⟨(C8_division_by_zero _ _).1.2 ?_, h, (C8_division_by_zero _ _).2 h⟩
  simp [get_position]

end ForceClaims

section IntegratorClaims

open CelestialObject

/-- The force-accumulation loop of `update_position` computes, in each
component, the sum of the force vectors over the bodies that are not `self`
(the skip at line 75 compares object identity). -/
lemma foldl_force (self : CelestialObject) (bodies : List CelestialObject) :
    ∀ acc : ℝ × ℝ,
    bodies.foldl
      (fun (acc : ℝ × ℝ) body =>
        if self.oid = body.oid then acc
        else (acc.1 + (self.calculate_force_vectors body).1,
              acc.2 + (self.calculate_force_vectors body).2)) acc =
    (acc.1 + ((bodies.filter fun b => self.oid ≠ b.oid).map
        (fun b => (self.calculate_force_vectors b).1)).sum,
     acc.2 + ((bodies.filter fun b => self.oid ≠ b.oid).map
        (fun b => (self.calculate_force_vectors b).2)).sum) := by
  induction bodies with
  | nil => intro acc; simp
  | cons b t ih =>
    intro acc
    rw [List.foldl_cons]
    by_cases hb : self.oid = b.oid
    · rw [if_pos hb, List.filter_cons_of_neg (by simp [hb])]
      exact ih acc
    · rw [if_neg hb, List.filter_cons_of_pos (by simp [hb]), ih]
      simp only [List.map_cons, List.sum_cons]
      rw [Prod.mk.injEq]
      constructor <;> ring

/-- C1: `update_position` sums the pairwise force vectors over every body in
the list whose identity differs from `self` (value-equal state does not
cause a skip), then performs `velocity += (force/mass)·TIME_STEP` followed by
`position += velocity·TIME_STEP` with the just-updated velocity
(semi-implicit Euler); every other attribute is unchanged.  The hypothesis
restricts to inputs where every interacting body is at a distinct position,
which is where the Python code computes at all (elsewhere it raises
`ZeroDivisionError`, claim C8). -/
theorem C1_update_position_semi_implicit (self : CelestialObject)
    (bodies : List CelestialObject)
    (h : ∀ b ∈ bodies, self.oid ≠ b.oid → self.get_position ≠ b.get_position) :
    (self.update_position bodies).x_vel =
      self.x_vel + ((bodies.filter fun b => self.oid ≠ b.oid).map
        (fun b => (self.calculate_force_vectors b).1)).sum / self.mass * TIME_STEP ∧
    (self.update_position bodies).y_vel =
      self.y_vel + ((bodies.filter fun b => self.oid ≠ b.oid).map
        (fun b => (self.calculate_force_vectors b).2)).sum / self.mass * TIME_STEP ∧
    (self.update_position bodies).x =
      self.x + (self.update_position bodies).x_vel * TIME_STEP ∧
    (self.update_position bodies).y =
      self.y + (self.update_position bodies).y_vel * TIME_STEP ∧
    (self.update_position bodies).oid = self.oid ∧
    (self.update_position bodies).name = self.name ∧
    (self.update_position bodies).radius = self.radius ∧
    (self.update_position bodies).color = self.color ∧
    (self.update_position bodies).mass = self.mass := by
  rw [update_position, foldl_force]
  refine ⟨by simp, by simp, by simp, by simp, rfl, rfl, rfl, rfl, rfl⟩

theorem C1_update_position_semi_implicit_witness :
    (∀ b ∈ [CelestialObject.mk 41 "B" 1 Color.WHITE 1 3 4 0 0],
      (CelestialObject.mk 40 "S" 1 Color.WHITE 2 0 0 1 1).oid ≠ b.oid →
      (CelestialObject.mk 40 "S" 1 Color.WHITE 2 0 0 1 1).get_position ≠ b.get_position) ∧
    ((CelestialObject.mk 40 "S" 1 Color.WHITE 2 0 0 1 1).update_position
        [CelestialObject.mk 41 "B" 1 Color.WHITE 1 3 4 0 0]).x_vel =
      (CelestialObject.mk 40 "S" 1 Color.WHITE 2 0 0 1 1).x_vel +
        (([CelestialObject.mk 41 "B" 1 Color.WHITE 1 3 4 0 0].filter
            fun b => (CelestialObject.mk 40 "S" 1 Color.WHITE 2 0 0 1 1).oid ≠ b.oid).map
          (fun b => ((CelestialObject.mk 40 "S" 1 Color.WHITE 2 0 0 1 1).calculate_force_vectors b).1)).sum /
          (CelestialObject.mk 40 "S" 1 Color.WHITE 2 0 0 1 1).mass * TIME_STEP ∧
    ((CelestialObject.mk 40 "S" 1 Color.WHITE 2 0 0 1 1).update_position
        [CelestialObject.mk 41 "B" 1 Color.WHITE 1 3 4 0 0]).x =
      (CelestialObject.mk 40 "S" 1 Color.WHITE 2 0 0 1 1).x +
        ((CelestialObject.mk 40 "S" 1 Color.WHITE 2 0 0 1 1).update_position
          [CelestialObject.mk 41 "B" 1 Color.WHITE 1 3 4 0 0]).x_vel * TIME_STEP := by
  have h : ∀ b ∈ [CelestialObject.mk 41 "B" 1 Color.WHITE 1 3 4 0 0],
      (CelestialObject.mk 40 "S" 1 Color.WHITE 2 0 0 1 1).oid ≠ b.oid →
      (CelestialObject.mk 40 "S" 1 Color.WHITE 2 0 0 1 1).get_position ≠ b.get_position := by
    intro b hb
    rw [List.mem_singleton] at hb
    subst hb
    intro _
    simp only [get_position, ne_eq, Prod.mk.injEq]
    norm_num
  have hc := C1_update_position_semi_implicit
    (CelestialObject.mk 40 "S" 1 Color.WHITE 2 0 0 1 1)
    [CelestialObject.mk 41 "B" 1 Color.WHITE 1 3 4 0 0] h
  exact ⟨h, hc.1, hc.2.2.1⟩

end IntegratorClaims

section NeighbourLemmas

open CelestialObject

lemma nns_cons_none (p b : CelestialObject) (t : List CelestialObject)
    (h : nearestNeighbourSpec p t = none) :
    nearestNeighbourSpec p (b :: t) = some b := by
  rw [nearestNeighbourSpec, h]

lemma nns_cons_some (p b m : CelestialObject) (t : List CelestialObject)
    (h : nearestNeighbourSpec p t = some m) :
    nearestNeighbourSpec p (b :: t) =
      if math_dist p.get_position b.get_position ≤
          math_dist p.get_position m.get_position then some b else some m := by
  rw [nearestNeighbourSpec, h]

lemma nns_eq_none_iff (p : CelestialObject) (l : List CelestialObject) :
    nearestNeighbourSpec p l = none ↔ l = [] := by
  cases l with
  | nil => simp [nearestNeighbourSpec]
  | cons b t =>
      cases ht : nearestNeighbourSpec p t with
      | none => simp [nns_cons_none p b t ht]
      | some m =>
          rw [nns_cons_some p b m t ht]
          by_cases hle : math_dist p.get_position b.get_position ≤
              math_dist p.get_position m.get_position <;> simp [hle]

lemma nns_mem (p : CelestialObject) :
    ∀ (l : List CelestialObject) (c : CelestialObject),
      nearestNeighbourSpec p l = some c → c ∈ l := by
  intro l
  induction l with
  | nil => intro c hc; simp [nearestNeighbourSpec] at hc
  | cons b t ih =>
      intro c hc
      cases ht : nearestNeighbourSpec p t with
      | none =>
          rw [nns_cons_none p b t ht] at hc
          simp only [Option.some.injEq] at hc
          simp [hc]
      | some m =>
          rw [nns_cons_some p b m t ht] at hc
          by_cases hle : math_dist p.get_position b.get_position ≤
              math_dist p.get_position m.get_position
          · rw [if_pos hle] at hc
            simp only [Option.some.injEq] at hc
            simp [hc]
          · rw [if_neg hle] at hc
            simp only [Option.some.injEq] at hc
            subst hc
            exact List.mem_cons_of_mem b (ih m ht)

lemma nns_min (p : CelestialObject) :
    ∀ (l : List CelestialObject) (c : CelestialObject),
      nearestNeighbourSpec p l = some c →
      ∀ b ∈ l, math_dist p.get_position c.get_position ≤
        math_dist p.get_position b.get_position := by
  intro l
  induction l with
  | nil => intro c hc; simp [nearestNeighbourSpec] at hc
  | cons b t ih =>
      intro c hc x hx
      cases ht : nearestNeighbourSpec p t with
      | none =>
          have htnil : t = [] := (nns_eq_none_iff p t).1 ht
          rw [nns_cons_none p b t ht] at hc
          simp only [Option.some.injEq] at hc
          subst hc
          rcases List.mem_cons.1 hx with hxb | hxt
          · rw [hxb]
          · rw [htnil] at hxt; cases hxt
      | some m =>
          rw [nns_cons_some p b m t ht] at hc
          by_cases hle : math_dist p.get_position b.get_position ≤
              math_dist p.get_position m.get_position
          · rw [if_pos hle] at hc
            simp only [Option.some.injEq] at hc
            subst hc
            rcases List.mem_cons.1 hx with hxb | hxt
            · rw [hxb]
            · exact hle.trans (ih m ht x hxt)
          · rw [if_neg hle] at hc
            simp only [Option.some.injEq] at hc
            subst hc
            rcases List.mem_cons.1 hx with hxb | hxt
            · rw [hxb]; exact (not_le.1 hle).le
            · exact ih m ht x hxt

lemma nns_cons_cons_of_le (p c b : CelestialObject) (l : List CelestialObject)
    (hcb : math_dist p.get_position c.get_position ≤
      math_dist p.get_position b.get_position) :
    nearestNeighbourSpec p (c :: b :: l) = nearestNeighbourSpec p (c :: l) := by
  cases ht : nearestNeighbourSpec p l with
  | none =>
      have htnil : l = [] := (nns_eq_none_iff p l).1 ht
      subst htnil
      rw [nns_cons_some p c b [b] (nns_cons_none p b [] ht), if_pos hcb,
        nns_cons_none p c [] ht]
  | some m =>
      by_cases hbm : math_dist p.get_position b.get_position ≤
          math_dist p.get_position m.get_position
      · have hb : nearestNeighbourSpec p (b :: l) = some b := by
          rw [nns_cons_some p b m l ht, if_pos hbm]
        rw [nns_cons_some p c b (b :: l) hb, if_pos hcb,
          nns_cons_some p c m l ht, if_pos (hcb.trans hbm)]
      · have hb : nearestNeighbourSpec p (b :: l) = some m := by
          rw [nns_cons_some p b m l ht, if_neg hbm]
        rw [nns_cons_some p c m (b :: l) hb, nns_cons_some p c m l ht]

lemma nns_cons_cons_of_lt (p c b : CelestialObject) (l : List CelestialObject)
    (hbc : math_dist p.get_position b.get_position <
      math_dist p.get_position c.get_position) :
    nearestNeighbourSpec p (c :: b :: l) = nearestNeighbourSpec p (b :: l) := by
  cases hbl : nearestNeighbourSpec p (b :: l) with
  | none => exact absurd ((nns_eq_none_iff p _).1 hbl) (by simp)
  | some m =>
      have hmb := nns_min p (b :: l) m hbl b (by simp)
      rw [nns_cons_some p c m (b :: l) hbl,
        if_neg (not_le.2 (lt_of_le_of_lt hmb hbc))]

lemma mcn_go (p : CelestialObject) :
    ∀ (l : List CelestialObject) (c : CelestialObject),
    (l.foldl (mcnStep p)
      (some c, (math_dist p.get_position c.get_position : EReal))).1 =
      nearestNeighbourSpec p (c :: l.filter fun b => b.oid ≠ p.oid) := by
  intro l
  induction l with
  | nil => intro c; simp [nearestNeighbourSpec]
  | cons b t ih =>
      intro c
      rw [List.foldl_cons]
      by_cases hskip : b.oid = p.oid
      · rw [List.filter_cons_of_neg (by simp [hskip])]
        have hstep : mcnStep p (some c,
            (math_dist p.get_position c.get_position : EReal)) b =
            (some c, (math_dist p.get_position c.get_position : EReal)) := by
          rw [mcnStep, if_pos hskip]
        rw [hstep, ih c]
      · rw [List.filter_cons_of_pos (by simp [hskip])]
        by_cases hlt : math_dist p.get_position b.get_position <
            math_dist p.get_position c.get_position
        · have hstep : mcnStep p (some c,
              (math_dist p.get_position c.get_position : EReal)) b =
              (some b, (math_dist p.get_position b.get_position : EReal)) := by
            rw [mcnStep, if_neg hskip]
            simp only [EReal.coe_lt_coe_iff, hlt, if_true]
          rw [hstep, ih b]
          exact (nns_cons_cons_of_lt p c b _ hlt).symm
        · have hstep : mcnStep p (some c,
              (math_dist p.get_position c.get_position : EReal)) b =
              (some c, (math_dist p.get_position c.get_position : EReal)) := by
            rw [mcnStep, if_neg hskip]
            simp only [EReal.coe_lt_coe_iff, hlt, if_false]
          rw [hstep, ih c]
          exact (nns_cons_cons_of_le p c b _ (not_lt.1 hlt)).symm

/-- The source loop of `mostest_closest_neighbour` computes the
first-encountered argmin (`nearestNeighbourSpec`) of the candidates that are
not the reference itself. -/
lemma mcn_eq_spec (p : CelestialObject) (l : List CelestialObject) :
    mostest_closest_neighbour p l =
      nearestNeighbourSpec p (l.filter fun b => b.oid ≠ p.oid) := by
  rw [mostest_closest_neighbour]
  induction l with
  | nil => simp [nearestNeighbourSpec]
  | cons b t ih =>
      rw [List.foldl_cons]
      by_cases hskip : b.oid = p.oid
      · rw [List.filter_cons_of_neg (by simp [hskip])]
        have hstep : mcnStep p (none, (⊤ : EReal)) b = (none, (⊤ : EReal)) := by
          rw [mcnStep, if_pos hskip]
        rw [hstep]
        exact ih
      · rw [List.filter_cons_of_pos (by simp [hskip])]
        have hstep : mcnStep p (none, (⊤ : EReal)) b =
            (some b, (math_dist p.get_position b.get_position : EReal)) := by
          rw [mcnStep, if_neg hskip]
          simp only [EReal.coe_lt_top, if_true]
        rw [hstep, mcn_go p t b]

end NeighbourLemmas

section NeighbourClaims

open CelestialObject

/-- C4: `mostest_closest_neighbour` equals the spec's first-encountered
argmin (`nearestNeighbourSpec`) over the candidates that are not the
reference itself (excluded by identity); it returns `none` exactly when
every candidate *is* the reference (in particular for an empty list), and a
returned candidate is a member of the list, distinct from the reference, at
minimal distance among all non-reference candidates. -/
theorem C4_nearest_neighbour_search (p : CelestialObject)
    (l : List CelestialObject) :
    mostest_closest_neighbour p l =
      nearestNeighbourSpec p (l.filter fun b => b.oid ≠ p.oid) ∧
    (mostest_closest_neighbour p l = none ↔ ∀ b ∈ l, b.oid = p.oid) ∧
    ∀ c, mostest_closest_neighbour p l = some c →
      c ∈ l ∧ c.oid ≠ p.oid ∧
      ∀ b ∈ l, b.oid ≠ p.oid →
        math_dist p.get_position c.get_position ≤
          math_dist p.get_position b.get_position := by
  refine ⟨mcn_eq_spec p l, ?_, ?_⟩
  · rw [mcn_eq_spec, nns_eq_none_iff, List.filter_eq_nil_iff]
    simp
  · intro c hc
    rw [mcn_eq_spec] at hc
    have hmem := nns_mem p _ c hc
    rw [List.mem_filter] at hmem
    have hmin := nns_min p _ c hc
    refine ⟨hmem.1, by simpa using hmem.2, fun b hb hbo => hmin b ?_⟩
    rw [List.mem_filter]
    exact ⟨hb, by simpa using hbo⟩

/-- Reference body for the C4 witness. -/
def wP : CelestialObject := ⟨50, "P", 1, Color.WHITE, 1, 0, 0, 0, 0⟩

/-- First candidate for the C4 witness, at distance 1 from `wP`. -/
def wX : CelestialObject := ⟨51, "X", 1, Color.WHITE, 1, 1, 0, 0, 0⟩

/-- Second candidate for the C4 witness, also at distance 1 from `wP`
(a tie, broken in favour of the first-encountered `wX`). -/
def wY : CelestialObject := ⟨52, "Y", 1, Color.WHITE, 1, (-1), 0, 0, 0⟩

theorem C4_nearest_neighbour_search_witness :
    mostest_closest_neighbour wP [wX, wY] = some wX ∧
    (wX ∈ [wX, wY] ∧ wX.oid ≠ wP.oid ∧
      ∀ b ∈ [wX, wY], b.oid ≠ wP.oid →
        math_dist wP.get_position wX.get_position ≤
          math_dist wP.get_position b.get_position) ∧
    mostest_closest_neighbour wP [] = none := by
  have hY : nearestNeighbourSpec wP [wY] = some wY :=
    nns_cons_none wP wY [] rfl
  have hle : math_dist wP.get_position wX.get_position ≤
      math_dist wP.get_position wY.get_position := by
    norm_num [math_dist, get_position, wP, wX, wY]
  have hsome : mostest_closest_neighbour wP [wX, wY] = some wX := by
    rw [mcn_eq_spec]
    have hfil : ([wX, wY].filter fun b => b.oid ≠ wP.oid) = [wX, wY] := by
      simp [wP, wX, wY]
    rw [hfil, nns_cons_some wP wX wY [wY] hY, if_pos hle]
  exact ⟨hsome, (C4_nearest_neighbour_search wP [wX, wY]).2.2 wX hsome,
    (C4_nearest_neighbour_search wP []).2.1.2 (by simp)⟩

end NeighbourClaims

section TrailLemmas

open CelestialObject

lemma Planet.update_position_obj (p : Planet) (star : CelestialObject)
    (bodies : List CelestialObject) :
    (p.update_position star bodies).obj = p.obj.update_position bodies := rfl

lemma Planet.update_position_distance (p : Planet) (star : CelestialObject)
    (bodies : List CelestialObject) :
    (p.update_position star bodies).distance_to_parent =
      math_dist (p.obj.update_position bodies).get_position star.get_position := rfl

lemma Planet.update_position_orbit (p : Planet) (star : CelestialObject)
    (bodies : List CelestialObject) :
    (p.update_position star bodies).orbit =
      if pyInt ((p.update_position star bodies).distance_to_parent * SCALE) <
          ((p.orbit ++ [((p.obj.update_position bodies).x,
            (p.obj.update_position bodies).y)]).length : ℤ) then
        pyTailSlice
          (p.orbit ++ [((p.obj.update_position bodies).x,
            (p.obj.update_position bodies).y)])
          (pyInt ((p.update_position star bodies).distance_to_parent * SCALE))
      else
        p.orbit ++ [((p.obj.update_position bodies).x,
          (p.obj.update_position bodies).y)] := rfl

end TrailLemmas

section TrailClaims

open CelestialObject

/-- C3 (amended): after `Planet.update_position`, *provided the computed
`tailLength = int(distance_to_parent · SCALE)` is at least 1*, the orbit
trail length never exceeds `tailLength`, and the update appends the new
position and keeps exactly the last `tailLength` points (dropping from the
front) when the appended trail is longer than `tailLength`.  The proviso is
forced: for `tailLength = 0` the source's slice `orbit[-0:]` keeps the whole
list (see the counterexample), so the bound fails there. -/
theorem C3_trail_bound_amended (p : Planet) (star : CelestialObject)
    (bodies : List CelestialObject)
    (h : 1 ≤ pyInt ((p.update_position star bodies).distance_to_parent * SCALE)) :
    ((p.update_position star bodies).orbit.length : ℤ) ≤
      pyInt ((p.update_position star bodies).distance_to_parent * SCALE) ∧
    (pyInt ((p.update_position star bodies).distance_to_parent * SCALE) <
        (p.orbit.length : ℤ) + 1 →
      (p.update_position star bodies).orbit =
        (p.orbit ++ [((p.obj.update_position bodies).x,
            (p.obj.update_position bodies).y)]).drop
          (p.orbit.length + 1 -
            (pyInt ((p.update_position star bodies).distance_to_parent * SCALE)).toNat)) ∧
    ((p.orbit.length : ℤ) + 1 ≤
        pyInt ((p.update_position star bodies).distance_to_parent * SCALE) →
      (p.update_position star bodies).orbit =
        p.orbit ++ [((p.obj.update_position bodies).x,
          (p.obj.update_position bodies).y)]) := by
  have horb := p.update_position_orbit star bodies
  set t := pyInt ((p.update_position star bodies).distance_to_parent * SCALE) with hteq
  set ap := p.orbit ++ [((p.obj.update_position bodies).x,
    (p.obj.update_position bodies).y)] with hapeq
  have hap : ap.length = p.orbit.length + 1 := by simp [hapeq]
  have htpos : (0 : ℤ) < t := by linarith
  by_cases hlt : t < (ap.length : ℤ)
  · have hslice : pyTailSlice ap t = ap.drop (ap.length - t.toNat) := by
      rw [pyTailSlice, if_pos htpos]
    have htn : t.toNat ≤ ap.length := Int.toNat_le.2 hlt.le
    have hlen : (ap.drop (ap.length - t.toNat)).length = t.toNat := by
      rw [List.length_drop, Nat.sub_sub_self htn]
    rw [horb, if_pos hlt, hslice]
    refine ⟨?_, ?_, ?_⟩
    · rw [hlen, Int.toNat_of_nonneg htpos.le]
    · intro _
      rw [hap]
    · intro hle
      rw [hap] at hlt
      push_cast at hlt
      linarith
  · rw [horb, if_neg hlt]
    have hge : (ap.length : ℤ) ≤ t := not_lt.1 hlt
    refine ⟨hge, ?_, fun _ => rfl⟩
    intro hlt2
    rw [hap] at hge
    push_cast at hge
    linarith

/-- Planet state for the C3 counterexample: it sits exactly on its parent
star, with one point already in its trail. -/
def cPlanet : Planet := ⟨⟨61, "Q", 1, Color.WHITE, 1, 0, 0, 0, 0⟩, [(0, 0)], 0⟩

/-- Parent star for the C3 counterexample, at the same position. -/
def cStar : CelestialObject := ⟨60, "R", 1, Color.WHITE, 1, 0, 0, 0, 0⟩

/-- C3 counterexample: the claim's invariant
`orbit length ≤ floor(distance_to_parent · SCALE)` is violated by
`Planet.update_position` when the computed tail length is 0: the distance to
the parent is 0, so `tailLength = 0`, but the slice `orbit[-0:]` keeps the
whole 2-point trail. -/
theorem C3_trail_bound_counterexample :
    pyInt ((cPlanet.update_position cStar []).distance_to_parent * SCALE) <
      ((cPlanet.update_position cStar []).orbit.length : ℤ) := by
  have hd : (cPlanet.update_position cStar []).distance_to_parent = 0 := by
    rw [Planet.update_position_distance]
    rw [math_dist_eq_zero_iff]
    simp only [CelestialObject.update_position, cPlanet, cStar, List.foldl_nil,
      get_position, Prod.mk.injEq]
    norm_num
  have ht : pyInt ((cPlanet.update_position cStar []).distance_to_parent * SCALE) = 0 := by
    rw [hd, zero_mul, pyInt, if_pos le_rfl, Int.floor_zero]
  have horb := cPlanet.update_position_orbit cStar []
  rw [ht] at horb ⊢
  rw [horb]
  norm_num [cPlanet, pyTailSlice]

/-- Planet state for the C3 witness: at rest at distance `AU` from its
parent star, with an empty trail, so the updated tail length is 200. -/
def w3Planet : Planet := ⟨⟨63, "W", 1, Color.WHITE, 1, AU, 0, 0, 0⟩, [], AU⟩

/-- Parent star for the C3 witness, at the origin. -/
def w3Star : CelestialObject := ⟨62, "V", 1, Color.WHITE, 1, 0, 0, 0, 0⟩

theorem C3_trail_bound_amended_witness :
    1 ≤ pyInt ((w3Planet.update_position w3Star []).distance_to_parent * SCALE) ∧
    ((w3Planet.update_position w3Star []).orbit.length : ℤ) ≤
      pyInt ((w3Planet.update_position w3Star []).distance_to_parent * SCALE) := by
  have hAU : (0 : ℝ) < AU := by rw [AU]; norm_num
  have hd : (w3Planet.update_position w3Star []).distance_to_parent = AU := by
    rw [Planet.update_position_distance]
    have : (w3Planet.obj.update_position []).get_position = (AU, 0) := by
      simp only [CelestialObject.update_position, w3Planet, List.foldl_nil,
        get_position]
      norm_num
    rw [this, math_dist]
    simp only [w3Star, get_position]
    rw [show (AU - 0) ^ 2 + ((0 : ℝ) - 0) ^ 2 = AU ^ 2 by ring]
    exact Real.sqrt_sq hAU.le
  have ht : pyInt ((w3Planet.update_position w3Star []).distance_to_parent * SCALE) = 200 := by
    rw [hd, SCALE]
    rw [show AU * (200 / AU) = 200 by field_simp]
    rw [pyInt, if_pos (by norm_num)]
    norm_num
  constructor
  · rw [ht]; norm_num
  · exact (C3_trail_bound_amended w3Planet w3Star [] (by rw [ht]; norm_num)).1

end TrailClaims

section FrameClaims

open CelestialObject

/-- C9: `set_position` modifies only `x`/`y` and `set_velocity` only
`x_vel`/`y_vel`; on a `Planet` the inherited setters leave the orbit trail
and `distance_to_parent` untouched, so after construction-then-teleport the
cached distance still reflects the construction-time position, and only
`Planet.update_position` recomputes it from the post-update positions. -/
theorem C9_setters_frame :
    (∀ (b : CelestialObject) (x y : ℝ),
      (b.set_position x y).x = x ∧ (b.set_position x y).y = y ∧
      (b.set_position x y).x_vel = b.x_vel ∧ (b.set_position x y).y_vel = b.y_vel ∧
      (b.set_position x y).mass = b.mass ∧ (b.set_position x y).name = b.name ∧
      (b.set_position x y).radius = b.radius ∧ (b.set_position x y).color = b.color ∧
      (b.set_position x y).oid = b.oid) ∧
    (∀ (b : CelestialObject) (vx vy : ℝ),
      (b.set_velocity vx vy).x_vel = vx ∧ (b.set_velocity vx vy).y_vel = vy ∧
      (b.set_velocity vx vy).x = b.x ∧ (b.set_velocity vx vy).y = b.y ∧
      (b.set_velocity vx vy).mass = b.mass ∧ (b.set_velocity vx vy).name = b.name ∧
      (b.set_velocity vx vy).radius = b.radius ∧ (b.set_velocity vx vy).color = b.color ∧
      (b.set_velocity vx vy).oid = b.oid) ∧
    (∀ (p : Planet) (x y : ℝ),
      (p.set_position x y).obj = p.obj.set_position x y ∧
      (p.set_position x y).orbit = p.orbit ∧
      (p.set_position x y).distance_to_parent = p.distance_to_parent) ∧
    (∀ (p : Planet) (vx vy : ℝ),
      (p.set_velocity vx vy).obj = p.obj.set_velocity vx vy ∧
      (p.set_velocity vx vy).orbit = p.orbit ∧
      (p.set_velocity vx vy).distance_to_parent = p.distance_to_parent) ∧
    (∀ (i : Nat) (nm : String) (parent : CelestialObject) (r : ℝ) (c : Color)
        (m : ℝ) (pos vel : ℝ × ℝ) (x y : ℝ),
      ((Planet.init i nm parent r c m pos vel).set_position x y).distance_to_parent =
        math_dist pos parent.get_position) ∧
    (∀ (p : Planet) (star : CelestialObject) (bodies : List CelestialObject),
      (p.update_position star bodies).distance_to_parent =
        math_dist (p.obj.update_position bodies).get_position star.get_position) :=
  ⟨fun _ _ _ => ⟨rfl, rfl, rfl, rfl, rfl, rfl, rfl, rfl, rfl⟩,
   fun _ _ _ => ⟨rfl, rfl, rfl, rfl, rfl, rfl, rfl, rfl, rfl⟩,
   fun _ _ _ => ⟨rfl, rfl, rfl⟩,
   fun _ _ _ => ⟨rfl, rfl, rfl⟩,
   fun _ _ _ _ _ _ _ _ _ _ => rfl,
   fun _ _ _ => rfl⟩

end FrameClaims

section SystemLemmas

lemma updatePlanets_length (star : CelestialObject) :
    ∀ (todo done : List Planet),
      (updatePlanets star done todo).length = done.length + todo.length := by
  intro todo
  induction todo with
  | nil => intro done; simp [updatePlanets]
  | cons p rest ih =>
      intro done
      rw [updatePlanets, ih]
      simp
      omega

lemma updatePlanets_take (star : CelestialObject) :
    ∀ (todo done : List Planet),
      (updatePlanets star done todo).take done.length = done := by
  intro todo
  induction todo with
  | nil => intro done; rw [updatePlanets]; exact List.take_length done
  | cons p rest ih =>
      intro done
      rw [updatePlanets]
      have h1 := ih (done ++
        [p.update_position star
          (star :: (done.map Planet.obj ++ (p :: rest).map Planet.obj))])
      rw [List.length_append, List.length_singleton] at h1
      have h2 : (updatePlanets star (done ++
          [p.update_position star
            (star :: (done.map Planet.obj ++ (p :: rest).map Planet.obj))])
            rest).take done.length =
          ((updatePlanets star (done ++
            [p.update_position star
              (star :: (done.map Planet.obj ++ (p :: rest).map Planet.obj))])
            rest).take (done.length + 1)).take done.length := by
        rw [List.take_take]
        congr 1
        omega
      rw [h2, h1, List.take_left]

lemma updatePlanets_get (star : CelestialObject) :
    ∀ (todo done : List Planet) (j : Nat) (hj : j < todo.length),
      (updatePlanets star done todo).get? (done.length + j) =
        some ((todo.get ⟨j, hj⟩).update_position star
          (star :: (((updatePlanets star done todo).take (done.length + j)).map
              Planet.obj ++ (todo.drop j).map Planet.obj))) := by
  intro todo
  induction todo with
  | nil => intro done j hj; cases hj
  | cons p rest ih =>
      intro done j hj
      rw [updatePlanets]
      cases j with
      | zero =>
          have htake := updatePlanets_take star rest (done ++
            [p.update_position star
              (star :: (done.map Planet.obj ++ (p :: rest).map Planet.obj))])
          rw [List.length_append, List.length_singleton] at htake
          have htake0 : (updatePlanets star (done ++
              [p.update_position star
                (star :: (done.map Planet.obj ++ (p :: rest).map Planet.obj))])
              rest).take done.length = done := by
            have h2 : (updatePlanets star (done ++
                [p.update_position star
                  (star :: (done.map Planet.obj ++ (p :: rest).map Planet.obj))])
                rest).take done.length =
                ((updatePlanets star (done ++
                  [p.update_position star
                    (star :: (done.map Planet.obj ++ (p :: rest).map Planet.obj))])
                  rest).take (done.length + 1)).take done.length := by
              rw [List.take_take]
              congr 1
              omega
            rw [h2, htake, List.take_left]
          have hget : (updatePlanets star (done ++
              [p.update_position star
                (star :: (done.map Planet.obj ++ (p :: rest).map Planet.obj))])
              rest).get? done.length = some (p.update_position star
                (star :: (done.map Planet.obj ++ (p :: rest).map Planet.obj))) := by
            have h3 : (updatePlanets star (done ++
                [p.update_position star
                  (star :: (done.map Planet.obj ++ (p :: rest).map Planet.obj))])
                rest).get? done.length =
                ((updatePlanets star (done ++
                  [p.update_position star
                    (star :: (done.map Planet.obj ++ (p :: rest).map Planet.obj))])
                  rest).take (done.length + 1)).get? done.length := by
              rw [List.get?_take (Nat.lt_succ_self _)]
            rw [h3, htake, List.get?_concat_length]
          rw [Nat.add_zero, hget, htake0]
          rfl
      | succ k =>
          have hk : k < rest.length := Nat.lt_of_succ_lt_succ hj
          have hidx : done.length + (k + 1) = (done ++
              [p.update_position star
                (star :: (done.map Planet.obj ++ (p :: rest).map Planet.obj))]).length
              + k := by
            rw [List.length_append, List.length_singleton]
            omega
          rw [hidx, ih _ k hk]
          rfl

lemma SolarSystem.update_positions_star (s : SolarSystem) :
    s.update_positions.star =
      s.star.update_position (s.planets.map Planet.obj) := rfl

lemma SolarSystem.update_positions_planets (s : SolarSystem) :
    s.update_positions.planets =
      updatePlanets (s.star.update_position (s.planets.map Planet.obj))
        [] s.planets := rfl

end SystemLemmas

section SystemClaims

/-- C5: `SolarSystem.update_positions` first updates the star against the
pre-tick planet list, then updates each planet in sequence against
`[star] + planets` as it stands at that moment: planet `j`'s update sees the
already-updated star, the already-updated planets before it, and the
pre-tick states of itself and the planets after it (Gauss-Seidel-like
stepping). -/
theorem C5_update_positions_gauss_seidel (s : SolarSystem) :
    s.update_positions.star =
      s.star.update_position (s.planets.map Planet.obj) ∧
    s.update_positions.name = s.name ∧
    s.update_positions.planets.length = s.planets.length ∧
    ∀ (j : Nat) (hj : j < s.planets.length),
      s.update_positions.planets.get? j =
        some ((s.planets.get ⟨j, hj⟩).update_position
          (s.star.update_position (s.planets.map Planet.obj))
          (s.star.update_position (s.planets.map Planet.obj) ::
            ((s.update_positions.planets.take j).map Planet.obj ++
              (s.planets.drop j).map Planet.obj))) := by
  refine ⟨rfl, rfl, ?_, ?_⟩
  · rw [SolarSystem.update_positions_planets, updatePlanets_length]
    simp
  · intro j hj
    have h := updatePlanets_get
      (s.star.update_position (s.planets.map Planet.obj)) s.planets [] j hj
    rw [List.length_nil, Nat.zero_add] at h
    rw [SolarSystem.update_positions_planets]
    exact h

/-- Star for the C5 witness. -/
def w5star : CelestialObject := ⟨70, "S5", 1, Color.WHITE, 1, 0, 0, 0, 0⟩

/-- Single planet for the C5 witness. -/
def w5p : Planet := ⟨⟨71, "P5", 1, Color.WHITE, 1, 1, 0, 0, 0⟩, [], 1⟩

/-- One-planet system for the C5 witness. -/
def w5sys : SolarSystem := ⟨"W5", w5star, [w5p]⟩

theorem C5_update_positions_gauss_seidel_witness :
    0 < w5sys.planets.length ∧
    w5sys.update_positions.planets.get? 0 =
      some (w5p.update_position
        (w5sys.star.update_position (w5sys.planets.map Planet.obj))
        (w5sys.star.update_position (w5sys.planets.map Planet.obj) ::
          ((w5sys.update_positions.planets.take 0).map Planet.obj ++
            (w5sys.planets.drop 0).map Planet.obj))) := by
  have hj : 0 < w5sys.planets.length := by simp [w5sys]
  exact ⟨hj, (C5_update_positions_gauss_seidel w5sys).2.2.2 0 hj⟩

end SystemClaims

section TallyLemmas

lemma dictIncr_sum (k : Nat) :
    ∀ (t t' : List (Nat × Nat)), dictIncr k t = some t' →
      sumCounts t' = sumCounts t + 1 := by
  intro t
  induction t with
  | nil => intro t' h; cases h
  | cons kv rest ih =>
      obtain ⟨q, v⟩ := kv
      intro t' h
      rw [dictIncr] at h
      by_cases hk : q = k
      · rw [if_pos hk] at h
        obtain rfl : (q, v + 1) :: rest = t' := Option.some.inj h
        simp [sumCounts]
        omega
      · rw [if_neg hk] at h
        cases hrest : dictIncr k rest with
        | none => rw [hrest] at h; cases h
        | some r =>
            rw [hrest, Option.map_some'] at h
            obtain rfl : (q, v) :: r = t' := Option.some.inj h
            have := ih r hrest
            simp [sumCounts] at this ⊢
            omega

lemma dictIncr_keys (k : Nat) :
    ∀ (t t' : List (Nat × Nat)), dictIncr k t = some t' →
      t'.map Prod.fst = t.map Prod.fst := by
  intro t
  induction t with
  | nil => intro t' h; cases h
  | cons kv rest ih =>
      obtain ⟨q, v⟩ := kv
      intro t' h
      rw [dictIncr] at h
      by_cases hk : q = k
      · rw [if_pos hk] at h
        obtain rfl : (q, v + 1) :: rest = t' := Option.some.inj h
        simp
      · rw [if_neg hk] at h
        cases hrest : dictIncr k rest with
        | none => rw [hrest] at h; cases h
        | some r =>
            rw [hrest, Option.map_some'] at h
            obtain rfl : (q, v) :: r = t' := Option.some.inj h
            simp [ih r hrest]

lemma dictIncr_mem_of_some (k : Nat) :
    ∀ (t t' : List (Nat × Nat)), dictIncr k t = some t' →
      k ∈ t.map Prod.fst := by
  intro t
  induction t with
  | nil => intro t' h; cases h
  | cons kv rest ih =>
      obtain ⟨q, v⟩ := kv
      intro t' h
      rw [dictIncr] at h
      by_cases hk : q = k
      · simp [hk]
      · rw [if_neg hk] at h
        cases hrest : dictIncr k rest with
        | none => rw [hrest] at h; cases h
        | some r => simp [ih r hrest]

lemma dictIncr_isSome_of_mem (k : Nat) :
    ∀ t : List (Nat × Nat), k ∈ t.map Prod.fst →
      ∃ t', dictIncr k t = some t' := by
  intro t
  induction t with
  | nil => intro h; cases h
  | cons kv rest ih =>
      obtain ⟨q, v⟩ := kv
      intro h
      by_cases hk : q = k
      · exact ⟨(q, v + 1) :: rest, by rw [dictIncr, if_pos hk]⟩
      · have hmem : k ∈ rest.map Prod.fst := by
          rcases List.mem_cons.1 h with h1 | h2
          · exact absurd h1.symm hk
          · exact h2
        obtain ⟨r, hr⟩ := ih hmem
        exact ⟨(q, v) :: r, by rw [dictIncr, if_neg hk, hr, Option.map_some']⟩

end TallyLemmas

section TallyClaims

/-- C7: along the driver loop the sum of the per-planet tally counts always
equals the tick counter: it holds after every successful iteration from the
initial state, because each successful tick increments `count` by one and
increments exactly one tally entry (the key returned by the
nearest-neighbour search) by one. -/
theorem C7_tally_sum_invariant :
    (∀ (n : Nat) (s : SimState), ticks n = some s →
      sumCounts s.closest_count = s.count) ∧
    (∀ (s s' : SimState), tick s = some s' →
      s'.count = s.count + 1 ∧
      sumCounts s'.closest_count = sumCounts s.closest_count + 1 ∧
      ∃ k ∈ s.closest_count.map Prod.fst,
        dictIncr k s.closest_count = some s'.closest_count) := by
  have hstep : ∀ (s s' : SimState), tick s = some s' →
      s'.count = s.count + 1 ∧
      sumCounts s'.closest_count = sumCounts s.closest_count + 1 ∧
      ∃ k ∈ s.closest_count.map Prod.fst,
        dictIncr k s.closest_count = some s'.closest_count := by
    intro s s' htick
    rw [tick] at htick
    cases hearth : s.sys.update_positions.planets.get? s.earthIdx with
    | none => rw [hearth] at htick; cases htick
    | some e =>
        rw [hearth] at htick
        simp only [] at htick
        cases hmcn : mostest_closest_neighbour e.obj
            (s.sys.update_positions.planets.map Planet.obj) with
        | none => rw [hmcn] at htick; cases htick
        | some c =>
            rw [hmcn] at htick
            simp only [] at htick
            cases hd : dictIncr c.oid s.closest_count with
            | none => rw [hd] at htick; cases htick
            | some t' =>
                rw [hd, Option.map_some'] at htick
                obtain rfl : (⟨s.sys.update_positions, s.earthIdx,
                    s.count + 1, t'⟩ : SimState) = s' := Option.some.inj htick
                exact ⟨rfl, dictIncr_sum c.oid _ _ hd, c.oid,
                  dictIncr_mem_of_some c.oid _ _ hd, hd⟩
  refine ⟨?_, hstep⟩
  intro n
  induction n with
  | zero =>
      intro s hs
      obtain rfl : initState = s := Option.some.inj hs
      rfl
  | succ m ih =>
      intro s hs
      rw [ticks] at hs
      cases hm : ticks m with
      | none => rw [hm] at hs; cases hs
      | some sm =>
          rw [hm, Option.some_bind] at hs
          have h1 := hstep sm s hs
          have h2 := ih sm hm
          rw [h1.2.1, h2, h1.1]

end TallyClaims

section StaticLemmas

open CelestialObject

lemma force_zero_mass (a b : CelestialObject) (ha : a.mass = 0) :
    a.calculate_force_vectors b = (0, 0) := by
  rw [calculate_force_vectors, calculate_distance_vectors, ha]
  simp

/-- A body of zero mass and zero velocity is left unchanged by the
integrator (its force vanishes with its mass, and in the real-number model
`0 / 0 = 0`). -/
lemma update_position_static (a : CelestialObject)
    (bodies : List CelestialObject)
    (ha : a.mass = 0) (hv : a.x_vel = 0) (hw : a.y_vel = 0) :
    a.update_position bodies = a := by
  rw [update_position, foldl_force]
  have h1 : ((bodies.filter fun b => a.oid ≠ b.oid).map
      (fun b => (a.calculate_force_vectors b).1)).sum = 0 := by
    apply List.sum_eq_zero
    intro x hx
    rw [List.mem_map] at hx
    obtain ⟨b, _, rfl⟩ := hx
    rw [force_zero_mass a b ha]
  have h2 : ((bodies.filter fun b => a.oid ≠ b.oid).map
      (fun b => (a.calculate_force_vectors b).2)).sum = 0 := by
    apply List.sum_eq_zero
    intro x hx
    rw [List.mem_map] at hx
    obtain ⟨b, _, rfl⟩ := hx
    rw [force_zero_mass a b ha]
  rw [h1, h2, hv, hw]
  ext <;> simp [hv, hw]

lemma pyInt_zero : pyInt 0 = 0 := by
  rw [pyInt, if_pos le_rfl]
  exact Int.floor_zero

/-- A zero-mass planet at rest exactly on its parent star, with an empty
trail: the update leaves its physical state unchanged, records distance 0,
and — via the `[-0:]` slice — keeps the single appended trail point. -/
lemma planet_update_static (p : Planet) (star : CelestialObject)
    (bodies : List CelestialObject)
    (hm : p.obj.mass = 0) (hv : p.obj.x_vel = 0) (hw : p.obj.y_vel = 0)
    (hpos : p.obj.get_position = star.get_position)
    (horb : p.orbit = []) :
    p.update_position star bodies = ⟨p.obj, [(p.obj.x, p.obj.y)], 0⟩ := by
  have hobj := update_position_static p.obj bodies hm hv hw
  have hd : (p.update_position star bodies).distance_to_parent = 0 := by
    rw [Planet.update_position_distance, hobj, hpos]
    exact (math_dist_eq_zero_iff _ _).2 rfl
  refine Planet.ext ?_ ?_ ?_
  · rw [Planet.update_position_obj, hobj]
  · rw [Planet.update_position_orbit, hd, zero_mul, pyInt_zero, hobj, horb,
      List.nil_append]
    rw [if_pos (by norm_num)]
    simp [pyTailSlice]
  · rw [hd]

end StaticLemmas

section TallyWitness

/-- Star for the C7 witness: zero mass, at rest at the origin. -/
def w7sun : CelestialObject := ⟨80, "S7", 1, Color.WHITE, 0, 0, 0, 0, 0⟩

/-- Reference planet for the C7 witness (the driver's "earth"). -/
def w7e : Planet := ⟨⟨81, "E7", 1, Color.WHITE, 0, 0, 0, 0, 0⟩, [], 0⟩

/-- The only other planet for the C7 witness; its oid 82 is the single
tally key. -/
def w7o : Planet := ⟨⟨82, "O7", 1, Color.WHITE, 0, 0, 0, 0, 0⟩, [], 0⟩

/-- Initial driver state for the C7 witness. -/
def w7 : SimState := ⟨⟨"W7", w7sun, [w7e, w7o]⟩, 0, 0, [(82, 0)]⟩

/-- The reference planet after one tick of the C7 witness state. -/
def w7e' : Planet := ⟨w7e.obj, [(0, 0)], 0⟩

/-- The other planet after one tick of the C7 witness state. -/
def w7o' : Planet := ⟨w7o.obj, [(0, 0)], 0⟩

/-- The C7 witness state after one tick: `count = 1` and the single tally
entry incremented to 1. -/
def w7tock : SimState := ⟨⟨"W7", w7sun, [w7e', w7o']⟩, 0, 1, [(82, 1)]⟩

lemma w7_sys_upd : w7.sys.update_positions = ⟨"W7", w7sun, [w7e', w7o']⟩ := by
  have hstar : w7.sys.star.update_position (w7.sys.planets.map Planet.obj) =
      w7sun := update_position_static _ _ rfl rfl rfl
  have h1 : w7e.update_position w7sun [w7sun, w7e.obj, w7o.obj] = w7e' :=
    planet_update_static w7e w7sun _ rfl rfl rfl rfl rfl
  have h2 : w7o.update_position w7sun [w7sun, w7e'.obj, w7o.obj] = w7o' :=
    planet_update_static w7o w7sun _ rfl rfl rfl rfl rfl
  refine SolarSystem.ext rfl ?_ ?_
  · rw [SolarSystem.update_positions_star]
    exact hstar
  · rw [SolarSystem.update_positions_planets, hstar]
    show updatePlanets w7sun [] [w7e, w7o] = [w7e', w7o']
    rw [updatePlanets]
    simp only [List.map_nil, List.map_cons, List.nil_append]
    rw [h1, updatePlanets]
    simp only [List.map_cons, List.map_nil, List.cons_append, List.nil_append,
      List.singleton_append]
    rw [h2, updatePlanets]

lemma w7_tick : tick w7 = some w7tock := by
  rw [tick, w7_sys_upd]
  have hearth : (⟨"W7", w7sun, [w7e', w7o']⟩ : SolarSystem).planets.get?
      w7.earthIdx = some w7e' := rfl
  rw [hearth]
  simp only []
  have hmcn : mostest_closest_neighbour w7e'.obj
      ((⟨"W7", w7sun, [w7e', w7o']⟩ : SolarSystem).planets.map Planet.obj) =
      some w7o'.obj := by
    rw [mcn_eq_spec]
    have hfil : (((⟨"W7", w7sun, [w7e', w7o']⟩ : SolarSystem).planets.map
        Planet.obj).filter fun b => b.oid ≠ w7e'.obj.oid) = [w7o'.obj] := by
      simp [w7e', w7o', w7e, w7o]
    rw [hfil]
    exact nns_cons_none _ _ _ rfl
  rw [hmcn]
  simp only []
  have hd : dictIncr w7o'.obj.oid w7.closest_count = some [(82, 1)] := by
    show dictIncr w7o'.obj.oid [(82, 0)] = some [(82, 1)]
    rw [dictIncr, if_pos (show (82 : Nat) = w7o'.obj.oid from rfl)]
  rw [hd, Option.map_some']
  rfl

theorem C7_tally_sum_invariant_witness :
    (ticks 0 = some initState ∧
      sumCounts initState.closest_count = initState.count) ∧
    (tick w7 = some w7tock ∧
      w7tock.count = w7.count + 1 ∧
      sumCounts w7tock.closest_count = sumCounts w7.closest_count + 1 ∧
      ∃ k ∈ w7.closest_count.map Prod.fst,
        dictIncr k w7.closest_count = some w7tock.closest_count) := by
  have h := (C7_tally_sum_invariant).2 w7 w7tock w7_tick
  exact ⟨⟨rfl, (C7_tally_sum_invariant).1 0 initState rfl⟩,
    w7_tick, h.1, h.2.1, h.2.2⟩

end TallyWitness

section DefaultScenario

lemma Planet.update_position_oid (p : Planet) (star : CelestialObject)
    (bodies : List CelestialObject) :
    (p.update_position star bodies).obj.oid = p.obj.oid := rfl

lemma updatePlanets_map_oid (star : CelestialObject) :
    ∀ (todo done : List Planet),
      (updatePlanets star done todo).map (fun p => p.obj.oid) =
        done.map (fun p => p.obj.oid) ++ todo.map (fun p => p.obj.oid) := by
  intro todo
  induction todo with
  | nil => intro done; rw [updatePlanets]; simp
  | cons p rest ih =>
      intro done
      rw [updatePlanets, ih]
      simp [Planet.update_position_oid]

lemma update_positions_map_oid (s : SolarSystem) :
    s.update_positions.planets.map (fun p => p.obj.oid) =
      s.planets.map (fun p => p.obj.oid) := by
  rw [SolarSystem.update_positions_planets, updatePlanets_map_oid]
  simp

/-- The driver-loop invariant of the default scenario: the four planets keep
the identities mercury, venus, earth, mars (in order), the reference index
stays 2 (Earth), and the tally keys stay mercury, venus, mars. -/
def oidInv (s : SimState) : Prop :=
  s.sys.planets.map (fun p => p.obj.oid) = [1, 2, 3, 4] ∧
  s.earthIdx = 2 ∧
  s.closest_count.map Prod.fst = [1, 2, 4]

lemma tick_step_of_inv (s : SimState) (hinv : oidInv s) :
    ∃ e c s',
      s.sys.update_positions.planets.get? s.earthIdx = some e ∧
      e.obj.oid = 3 ∧
      mostest_closest_neighbour e.obj
        (s.sys.update_positions.planets.map Planet.obj) = some c ∧
      c.oid ≠ e.obj.oid ∧ (c.oid = 1 ∨ c.oid = 2 ∨ c.oid = 4) ∧
      c.oid ∈ s.closest_count.map Prod.fst ∧
      tick s = some s' ∧ oidInv s' := by
  obtain ⟨hoids, hidx, hkeys⟩ := hinv
  have hoids' : s.sys.update_positions.planets.map (fun p => p.obj.oid) =
      [1, 2, 3, 4] := by
    rw [update_positions_map_oid]; exact hoids
  have hget : (s.sys.update_positions.planets.map (fun p => p.obj.oid)).get? 2 =
      some 3 := by rw [hoids']; rfl
  rw [List.get?_map] at hget
  cases he : s.sys.update_positions.planets.get? 2 with
  | none => rw [he] at hget; cases hget
  | some e =>
      rw [he, Option.map_some'] at hget
      have heo : e.obj.oid = 3 := Option.some.inj hget
      have hL : (s.sys.update_positions.planets.map Planet.obj).map
          (fun b => b.oid) = [1, 2, 3, 4] := by
        rw [List.map_map]; exact hoids'
      have hget0 : ((s.sys.update_positions.planets.map Planet.obj).map
          (fun b => b.oid)).get? 0 = some 1 := by rw [hL]; rfl
      rw [List.get?_map] at hget0
      cases hb0 : (s.sys.update_positions.planets.map Planet.obj).get? 0 with
      | none => rw [hb0] at hget0; cases hget0
      | some b0 =>
          rw [hb0, Option.map_some'] at hget0
          have hb0o : b0.oid = 1 := Option.some.inj hget0
          have hb0mem : b0 ∈ s.sys.update_positions.planets.map Planet.obj :=
            List.get?_mem hb0
          have hne : mostest_closest_neighbour e.obj
              (s.sys.update_positions.planets.map Planet.obj) ≠ none := by
            rw [mcn_eq_spec, ne_eq, nns_eq_none_iff, List.filter_eq_nil_iff]
            intro hall
            have := hall b0 hb0mem
            simp only [heo, decide_not, Bool.not_eq_true', decide_eq_false_iff_not,
              ne_eq, Decidable.not_not] at this
            rw [hb0o] at this
            cases this
          cases hc : mostest_closest_neighbour e.obj
              (s.sys.update_positions.planets.map Planet.obj) with
          | none => exact absurd hc hne
          | some c =>
              have hcspec := hc
              rw [mcn_eq_spec] at hcspec
              have hcmem := nns_mem e.obj _ c hcspec
              rw [List.mem_filter] at hcmem
              have hcne : c.oid ≠ e.obj.oid := by simpa using hcmem.2
              have hcin : c.oid ∈ [1, 2, 3, 4] := by
                rw [← hL]
                exact List.mem_map_of_mem (fun b => b.oid) hcmem.1
              have hdisj : c.oid = 1 ∨ c.oid = 2 ∨ c.oid = 4 := by
                rw [heo] at hcne
                simp only [List.mem_cons, List.not_mem_nil, or_false] at hcin
                rcases hcin with h | h | h | h
                · exact Or.inl h
                · exact Or.inr (Or.inl h)
                · exact absurd h hcne
                · exact Or.inr (Or.inr h)
              have hkey : c.oid ∈ s.closest_count.map Prod.fst := by
                rw [hkeys]
                rcases hdisj with h | h | h <;> simp [h]
              obtain ⟨t', hd⟩ := dictIncr_isSome_of_mem c.oid _ hkey
              refine ⟨e, c, ⟨s.sys.update_positions, s.earthIdx,
                s.count + 1, t'⟩, by rw [hidx]; exact he, heo, hc, hcne,
                hdisj, hkey, ?_, ?_, by rw [hidx], ?_⟩
              · rw [tick, hidx, he]
                simp only []
                rw [hc]
                simp only []
                rw [hd, Option.map_some']
              · show s.sys.update_positions.planets.map (fun p => p.obj.oid) =
                  [1, 2, 3, 4]
                exact hoids'
              · show t'.map Prod.fst = [1, 2, 4]
                rw [dictIncr_keys c.oid _ _ hd, hkeys]

lemma ticks_inv : ∀ n : Nat, ∃ s, ticks n = some s ∧ oidInv s := by
  intro n
  induction n with
  | zero => exact ⟨initState, rfl, rfl, rfl, rfl⟩
  | succ m ih =>
      obtain ⟨s, hs, hinv⟩ := ih
      obtain ⟨e, c, s', _, _, _, _, _, _, htick, hinv'⟩ :=
        tick_step_of_inv s hinv
      refine ⟨s', ?_, hinv'⟩
      rw [ticks, hs, Option.some_bind]
      exact htick

end DefaultScenario

section DefaultScenarioClaims

/-- C10: in the driver's default scenario, at every tick the
nearest-neighbour search for Earth (`planets[2]`, identity 3) over the
updated planet list returns some planet that is not Earth and is one of
mercury, venus, mars (identities 1, 2, 4) — never `none` — and that result
is always a key of `closest_count`, so the increment never fails and the
loop runs forever (`ticks` is always `some`). -/
theorem C10_default_tally_lookup_safe :
    ∀ n : Nat, ∃ s e c, ticks n = some s ∧
      s.sys.update_positions.planets.get? s.earthIdx = some e ∧
      mostest_closest_neighbour e.obj
        (s.sys.update_positions.planets.map Planet.obj) = some c ∧
      c.oid ≠ e.obj.oid ∧
      (c.oid = mercury.obj.oid ∨ c.oid = venus.obj.oid ∨ c.oid = mars.obj.oid) ∧
      c.oid ∈ s.closest_count.map Prod.fst ∧
      (ticks (n + 1)).isSome = true := by
  intro n
  obtain ⟨s, hs, hinv⟩ := ticks_inv n
  obtain ⟨e, c, s', he, _, hc, hcne, hdisj, hkey, htick, _⟩ :=
    tick_step_of_inv s hinv
  refine ⟨s, e, c, hs, he, hc, hcne, hdisj, hkey, ?_⟩
  rw [ticks, hs, Option.some_bind, htick]
  rfl

end DefaultScenarioClaims

end MCN
